import Mathlib

/-!
Verification development for `bin/reflections.py`: a script that compiles
per-student midterm-reflection survey rows into RST documents, converts them
to PDFs, and optionally emails each PDF with grade-conditioned cover text.

The embedding models Python strings as Lean `String` (lists of characters),
Python `dict` state of `generate_pdfs` as an explicit record, the filesystem
output directory as an association list from filename to content, numeric
values as `ℚ` (exact arithmetic in place of IEEE floats), and uncaught Python
exceptions as `Except` errors that abort the surrounding computation.
External collaborators (rst2latex, pdflatex, SMTP transport, the filesystem
at dispatch time) are passed in as function parameters.
-/

/-- Python `s[:-1]`: the string with its final character removed (empty
string maps to itself). -/
def pyDropLast (s : String) : String := String.mk s.data.dropLast

/-- Python `s.startswith(pre)`. -/
def pyStartsWith (s pre : String) : Bool := List.isPrefixOf pre.data s.data

/-- Python `s.endswith(suf)`, phrased via reversed prefix testing. -/
def pyEndsWith (s suf : String) : Bool :=
  List.isPrefixOf suf.data.reverse s.data.reverse

/-- Python `s.lower()` (restricted to ASCII case mapping, which covers the
name fields this script lowercases). -/
def pyLower (s : String) : String := String.mk (s.data.map Char.toLower)

/-- Python `s.split(sep)` for a single-character separator `sep`, on the
character list: `"a[b".split("[") = ["a", "b"]`, `"".split("[") = [""]`. -/
def pySplitChar (c : Char) : List Char → List (List Char)
  | [] => [[]]
  | x :: xs =>
    if x = c then [] :: pySplitChar c xs
    else
      match pySplitChar c xs with
      | [] => [[x]]
      | y :: ys => (x :: y) :: ys

/-- Leading and trailing whitespace removal, as Python `float` applies to its
argument before parsing. -/
def stripWS (l : List Char) : List Char :=
  ((l.dropWhile Char.isWhitespace).reverse.dropWhile Char.isWhitespace).reverse

/-- Numeric value of a list of decimal digit characters, most significant
first. -/
def natOfDigits (l : List Char) : Nat :=
  l.foldl (fun n c => 10 * n + (c.toNat - '0'.toNat)) 0

/-- Bit length of a natural number, with explicit fuel so the recursion is
structural (fuel `n` suffices). -/
def bitlenAux : Nat → Nat → Nat
  | 0, _ => 0
  | _ + 1, 0 => 0
  | fuel + 1, n + 1 => bitlenAux fuel ((n + 1) / 2) + 1

/-- Number of binary digits of `n` (0 for 0). -/
def natBitlen (n : Nat) : Nat := bitlenAux n n

/-- Rounding of an exact rational to the nearest IEEE-754 binary64 value
(ties to even) — the arithmetic Python floats perform. The magnitude is
scaled so the significand has 53 bits (with a fixed 2^-1074 scale below the
normal range, modelling gradual underflow), rounded half-to-even as an
integer, and scaled back. Magnitudes at or beyond 2^1024, which Python
turns into infinity, are outside the modelled range; no value in this
workflow approaches them. -/
def roundDouble (q : ℚ) : ℚ :=
  if q.num = 0 then 0 else
  let a := q.num.natAbs
  let b := q.den
  let e0 : Int := Int.subNatNat (natBitlen a) (natBitlen b)
  let ge : Int → Bool := fun e =>
    match e with
    | .ofNat n => decide (b * 2 ^ n ≤ a)
    | .negSucc n => decide (b ≤ a * 2 ^ (n + 1))
  let e : Int := if ge e0 then e0 else e0 - 1
  let sh : Int :=
    match e with
    | .ofNat n => Int.subNatNat 52 n
    | .negSucc n => if n + 1 ≤ 1022 then Int.ofNat (52 + (n + 1))
      else Int.ofNat 1074
  let rnd : Nat → Nat → Nat := fun nn dd =>
    let q0 := nn / dd
    let r := nn % dd
    if 2 * r < dd then q0
    else if dd < 2 * r then q0 + 1
    else if q0 % 2 = 0 then q0 else q0 + 1
  let signed : Nat → Int := fun m =>
    match q.num with
    | .negSucc _ => Int.negOfNat m
    | _ => Int.ofNat m
  match sh with
  | .ofNat k => mkRat (signed (rnd (a * 2 ^ k) b)) (2 ^ k)
  | .negSucc k => mkRat (signed (rnd a (b * 2 ^ (k + 1)) * 2 ^ (k + 1))) 1

/-- One Python float addition: the exact rational sum (built explicitly
from numerators and denominators), then binary64 rounding. This is the
`+=` of the running category totals in `generate_pdfs`. -/
def fadd (x y : ℚ) : ℚ :=
  roundDouble
    (mkRat (x.num * Int.ofNat y.den + y.num * Int.ofNat x.den) (x.den * y.den))

/-- Unsigned decimal numeral: digits with an optional fractional point, at
least one digit overall (`"42"`, `"42."`, `".5"`; not `"."` or `""`). -/
def parseUnsigned? (cs : List Char) : Option ℚ :=
  let ip := cs.takeWhile Char.isDigit
  match cs.dropWhile Char.isDigit with
  | [] => if ip.isEmpty then none else some (natOfDigits ip)
  | '.' :: fp =>
    if fp.all Char.isDigit && !(ip.isEmpty && fp.isEmpty) then
      some (mkRat (Int.ofNat (natOfDigits ip * 10 ^ fp.length + natOfDigits fp))
        (10 ^ fp.length))
    else none
  | _ => none

/-- Python `float(s)` as used on percentage answers: optional surrounding
whitespace, optional sign, then a decimal numeral, whose exact value is
rounded to the nearest binary64 double exactly as Python's float does.
(Exponent, `inf`/`nan` and underscore forms of the Python float grammar are
outside the modelled grammar; no answer string in this workflow uses them.)
Returns `none` where Python raises `ValueError`. -/
def pythonFloat? (s : String) : Option ℚ :=
  match stripWS s.data with
  | '+' :: t => (parseUnsigned? t).map roundDouble
  | '-' :: t => (parseUnsigned? t).map (fun v => roundDouble (mkRat (-v.num) v.den))
  | t => (parseUnsigned? t).map roundDouble

/-- The percentage parse of `generate_pdfs`:
`try: per = float(answer[:-1]) except: per = 0`. The final character is
dropped unconditionally (it is not checked to be `%`), and any parse failure
yields `0`. -/
def parsePercentage (answer : String) : ℚ :=
  match pythonFloat? (pyDropLast answer) with
  | some v => v
  | none => 0

/-- A survey row as iterated by `generate_pdfs`: the ordered list of
(question label, answer) pairs produced by `zip(df.columns, col_info)`. -/
abbrev Row : Type := List (String × String)

/-- The seven routing classes of the `if`/`elif` chain in `generate_pdfs`. -/
inductive FieldClass where
  | identity
  | category1
  | category2
  | override1
  | override2
  | ignorable
  | generic
deriving DecidableEq, Repr

/-- The question-label router of `generate_pdfs`, one class per branch of the
source's `if`/`elif` chain, evaluated in the source's order: identity fields,
then the test-preparation category, then the points-lost category, then the
free-text overrides (`'1'` suffix selects the points-lost slot), then the
ignorable `Unnamed` columns, then the generic fallback. -/
def classify (q : String) : FieldClass :=
  if q = "First Name" ∨ q = "Last Name" then .identity
  else if pyStartsWith q "What percentage" then .category1
  else if pyStartsWith q "Now that" then .category2
  else if pyStartsWith q "If \"other\"" then
    (if pyEndsWith q "1" then .override2 else .override1)
  else if pyStartsWith q "Unnamed" then .ignorable
  else .generic

/-- Sub-label extraction `question.split('[')[1][:-1]`; `none` models the
`IndexError` Python raises when the label contains no `[`. -/
def subCat (q : String) : Option String :=
  ((pySplitChar '[' q.data)[1]?).map (fun l => String.mk l.dropLast)

/-- Modelled from the spec's wording, for comparison with `subCat`: the
substring of the label strictly between the first `[` and the final `]`. -/
def specSubLabel (q : String) : String :=
  let after := (q.data.dropWhile (fun c => c != '[')).drop 1
  String.mk (((after.reverse.dropWhile (fun c => c != ']')).drop 1).reverse)

/-- Uncaught Python exceptions of `generate_pdfs`, which abort the run. -/
inductive PyError where
  | indexError
  | keyError (k : String)
  | valueError
deriving DecidableEq, Repr

/-- The per-row mutable state of `generate_pdfs`: the `data` dict (with its
statically known key set; `FirstName`, `LastName` and the two override keys
are absent until assigned) together with the generic sections appended to the
`rst` accumulator between `TEMPLATE` and `END_TEMPLATE`. -/
structure ReportData where
  courseDesig : String
  firstName : Option String
  lastName : Option String
  testPrep : String
  testPrepTotal : ℚ
  lostPer : String
  lostPerTotal : ℚ
  testPrepOther : Option String
  lostPerOther : Option String
  genericRst : String
deriving DecidableEq, Repr

/-- The state at the top of the row loop:
`data = {'course_desig': course, 'lost_per': '', 'test_prep': ''}` plus the
zeroed totals, with `rst = TEMPLATE` (no generic sections yet). -/
def initData (course : String) : ReportData :=
  { courseDesig := course
    firstName := none
    lastName := none
    testPrep := ""
    testPrepTotal := 0
    lostPer := ""
    lostPerTotal := 0
    testPrepOther := none
    lostPerOther := none
    genericRst := "" }

/-- One iteration of the question loop of `generate_pdfs`, routed by
`classify` exactly as the source's `if`/`elif` chain routes it. -/
def compileStep (d : ReportData) (q a : String) : Except PyError ReportData :=
  match classify q with
  | .identity =>
    if q = "First Name" then .ok { d with firstName := some a }
    else .ok { d with lastName := some a }
  | .category1 =>
    match subCat q with
    | none => .error .indexError
    | some sc => .ok { d with
        testPrep := d.testPrep ++ "- " ++ sc ++ ": " ++ a ++ "\n"
        testPrepTotal := fadd d.testPrepTotal (parsePercentage a) }
  | .category2 =>
    match subCat q with
    | none => .error .indexError
    | some sc => .ok { d with
        lostPer := d.lostPer ++ "- " ++ sc ++ ": " ++ a ++ "\n"
        lostPerTotal := fadd d.lostPerTotal (parsePercentage a) }
  | .override2 => .ok { d with lostPerOther := some a }
  | .override1 => .ok { d with testPrepOther := some a }
  | .ignorable => .ok d
  | .generic => .ok { d with genericRst :=
      d.genericRst ++ q ++ "\n" ++ String.mk (List.replicate q.length '=')
        ++ "\n" ++ a ++ "\n\n" }

/-- The full question loop over one row, left to right; an uncaught exception
aborts the row (and, with no handler in the source, the whole run). -/
def compileRow (d : ReportData) : Row → Except PyError ReportData
  | [] => .ok d
  | (q, a) :: rest =>
    match compileStep d q a with
    | .error e => .error e
    | .ok d2 => compileRow d2 rest

/-- Left-to-right Python-float accumulation of the parsed percentage answers
of one category's sub-questions, in row order, from a starting total — the
value the `+=` loop of `generate_pdfs` computes. -/
def catFold (c : FieldClass) (init : ℚ) (row : Row) : ℚ :=
  List.foldl (fun t p => fadd t (parsePercentage p.2)) init
    (List.filter (fun p => decide (classify p.1 = c)) row)

/-- One piece of a Python format string: literal text or a `\x7bkey\x7d`
replacement field. -/
inductive Tok where
  | lit (s : String)
  | key (k : String)
deriving DecidableEq, Repr

/-- Scanner mode while tokenizing a format string: inside literal text or
inside a replacement field, with the characters read so far (reversed). -/
inductive FmtMode where
  | lit (acc : List Char)
  | key (acc : List Char)

/-- Tokenizer for Python `str.format` templates: `\x7b\x7b` and `\x7d\x7d`
escape to literal braces, `\x7bkey\x7d` is a replacement field, and a
dangling or lone brace is a `ValueError`. -/
def tokenizeAux : FmtMode → List Char → Except PyError (List Tok)
  | .lit acc, [] => .ok [Tok.lit (String.mk acc.reverse)]
  | .key _, [] => .error .valueError
  | .lit acc, [c] =>
    if c = '\x7b' then .error .valueError
    else if c = '\x7d' then .error .valueError
    else tokenizeAux (.lit (c :: acc)) []
  | .lit acc, c :: c2 :: rest =>
    if c = '\x7b' then
      if c2 = '\x7b' then tokenizeAux (.lit (c :: acc)) rest
      else Except.map (fun ts => Tok.lit (String.mk acc.reverse) :: ts)
        (tokenizeAux (.key []) (c2 :: rest))
    else if c = '\x7d' then
      if c2 = '\x7d' then tokenizeAux (.lit (c :: acc)) rest
      else .error .valueError
    else tokenizeAux (.lit (c :: acc)) (c2 :: rest)
  | .key acc, c :: rest =>
    if c = '\x7d' then
      Except.map (fun ts => Tok.key (String.mk acc.reverse) :: ts)
        (tokenizeAux (.lit []) rest)
    else if c = '\x7b' then .error .valueError
    else tokenizeAux (.key (c :: acc)) rest

/-- Substitution pass of `str.format(**data)`: each replacement field is
looked up in the keyword dict; a missing key is a `KeyError`. -/
def substToks (f : String → Option String) : List Tok → Except PyError String
  | [] => .ok ""
  | Tok.lit s :: rest => Except.map (fun t => s ++ t) (substToks f rest)
  | Tok.key k :: rest =>
    match f k with
    | none => .error (.keyError k)
    | some v => Except.map (fun t => v ++ t) (substToks f rest)

/-- Python `template.format(**data)` with `data` given as a lookup function:
tokenize, then substitute. -/
def pyFormat (template : String) (f : String → Option String) :
    Except PyError String :=
  match tokenizeAux (.lit []) template.data with
  | .error e => .error e
  | .ok toks => substToks f toks
/-- A banner line of `n` repeated equals signs, as the source templates
contain (written via `List.replicate`; the lengths 79, 84 and 120 below are
the source's rule-line lengths). -/
def eqRule (n : Nat) : String := String.mk (List.replicate n '=')

lemma string_data_append (a b : String) : (a ++ b).data = a.data ++ b.data := rfl

/-- The fixed RST head template of `generate_pdfs` (verbatim from the source). -/
def TEMPLATE : String :=
  (eqRule 79 ++ "\n{course_desig} Midterm Reflection\n" ++ eqRule 79 ++ "\n\nStudent\n=======\n\n{FirstName} {LastName}\n\n")

/-- The fixed RST tail template of `generate_pdfs` (verbatim from the source). -/
def END_TEMPLATE : String :=
  ("\nWhat percentage of your test-preparation time was spent in each of these activities?\n" ++ eqRule 84 ++ "\n\n{test_prep}\nTotal Percentage: {test_prep_total}\n\nIf \"other\" above please specify.\n--------------------------------\n{test_prep_other}\n\nNow that you have looked over your graded exam, estimate the percentage of points you lost due to each of the following?\n" ++ eqRule 120 ++ "\n\n{lost_per}\nTotal Percentage: {lost_per_total}\n\nIf \"other\" above please specify.\n--------------------------------\n{lost_per_other}\n")

/-- The email body template of `send_emails` (verbatim from the source). -/
def EMAIL_TEMPLATE : String :=
  "{FirstName},\n{poor_text}\nI've attached what you wrote for your midterm reflection. You can use this\ninformation to better prepare for the final exam. If you have any questions\nwhile studying please either come visit me or the TA in the coming week or ask\non Piazza. I've also taken into consideration the comments you left for me in\nthe reflection. I wish you success!\n\nJason\n\nJason K. Moore, PhD\nLecturer, Mechanical and Aerospace Engineering Department\nUniversity of California, Davis\nfaculty.engineering.ucdavis.edu/moore\njkm@ucdavis.edu\n530-752-4805"

/-- The encouragement cover-text variant of `send_emails` (verbatim from the source). -/
def POOR_TEXT : String :=
  "\nYour midterm score was below average and I really want you to bring your grade\nup with the final. It will take extra work to do so, but I think you can\nsignificantly improve your grade.\n"

/-- Decimal digits of a natural number, least significant first, with
explicit fuel so that the definition is structurally recursive (fuel `n`
suffices for `n ≥ 1`). -/
def natDigitsAux : Nat → Nat → List Char
  | 0, _ => []
  | _ + 1, 0 => []
  | fuel + 1, n + 1 => Nat.digitChar ((n + 1) % 10) :: natDigitsAux fuel ((n + 1) / 10)

/-- Decimal rendering of a natural number. -/
def natRepr (n : Nat) : String :=
  if n = 0 then "0" else String.mk (natDigitsAux n n).reverse

/-- Decimal rendering of an integer. -/
def intRepr (i : Int) : String :=
  if i < 0 then "-" ++ natRepr i.natAbs else natRepr i.natAbs

/-- Rendering of the accumulated totals when the document is formatted.
Python prints `str(float)` notation; the exact digit string is irrelevant to
every property below, so the exact-rational value is rendered instead. -/
def ratRepr (q : ℚ) : String :=
  if q.den = 1 then intRepr q.num
  else intRepr q.num ++ "/" ++ natRepr q.den

/-- Lookup into the `data` dict as `rst.format(**data)` sees it: the five
always-present keys, plus the identity and override keys when assigned. -/
def lookupData (d : ReportData) (k : String) : Option String :=
  if k = "course_desig" then some d.courseDesig
  else if k = "FirstName" then d.firstName
  else if k = "LastName" then d.lastName
  else if k = "test_prep" then some d.testPrep
  else if k = "test_prep_total" then some (ratRepr d.testPrepTotal)
  else if k = "test_prep_other" then d.testPrepOther
  else if k = "lost_per" then some d.lostPer
  else if k = "lost_per_total" then some (ratRepr d.lostPerTotal)
  else if k = "lost_per_other" then d.lostPerOther
  else none

/-- Per-row document production of `generate_pdfs`: run the question loop,
read `data['LastName']` to build the output base name (a `KeyError` here is
uncaught, exactly as in the source, where the filename is built before
formatting), then format `TEMPLATE ++ generic sections ++ END_TEMPLATE` with
the row's data. Returns the lower-cased last-name base and the formatted RST
body. -/
def renderRow (course : String) (row : Row) : Except PyError (String × String) :=
  match compileRow (initData course) row with
  | .error e => .error e
  | .ok d =>
    match d.lastName with
    | none => .error (.keyError "LastName")
    | some ln =>
      match pyFormat (TEMPLATE ++ d.genericRst ++ END_TEMPLATE) (lookupData d) with
      | .error e => .error e
      | .ok content => .ok (pyLower ln, content)

/-- The output directory as a name-to-content association list. -/
abbrev Dir : Type := List (String × String)

/-- Writing a file: the new entry replaces any previous entry of that name. -/
def setFile (d : Dir) (n c : String) : Dir :=
  (n, c) :: List.filter (fun p => !(p.1 == n)) d

/-- The external collaborators of `generate_pdfs`, as content transformers:
`rst2latex.py` output for a given RST body, and the PDF, log and aux files
`pdflatex` drops in the output directory for a given TeX body. -/
structure Externals where
  texOf : String → String
  pdfOf : String → String
  logOf : String → String
  auxOf : String → String

/-- The row loop of `generate_pdfs` acting on the output directory: each
successful row writes `<base>.rst`, the rst2latex output `<base>.tex`, and
the pdflatex byproducts `<base>.pdf`, `<base>.log`, `<base>.aux`; the first
uncaught exception aborts the whole loop. -/
def runRows (ext : Externals) (course : String) : List Row → Dir → Except PyError Dir
  | [], dir => .ok dir
  | row :: rest, dir =>
    match renderRow course row with
    | .error e => .error e
    | .ok (base, content) =>
      let texC := ext.texOf content
      let dir1 := setFile dir (base ++ ".rst") content
      let dir2 := setFile dir1 (base ++ ".tex") texC
      let dir3 := setFile dir2 (base ++ ".pdf") (ext.pdfOf texC)
      let dir4 := setFile dir3 (base ++ ".log") (ext.logOf texC)
      let dir5 := setFile dir4 (base ++ ".aux") (ext.auxOf texC)
      runRows ext course rest dir5

/-- The glob patterns of the cleanup loop, as a test on one filename:
`*.aux`, `*.log`, `*.out`, `*.rst`, `*.tex`. -/
def bannedExt (n : String) : Bool :=
  pyEndsWith n ".aux" || pyEndsWith n ".log" || pyEndsWith n ".out" ||
    pyEndsWith n ".rst" || pyEndsWith n ".tex"

/-- The cleanup loop of `generate_pdfs`: every file in the output directory
matching one of the five glob patterns is removed. -/
def cleanupDir (d : Dir) : Dir :=
  List.filter (fun p => !(bannedExt p.1)) d

/-- `generate_pdfs` over the already-ingested rows: process every row, then
(only when no exception aborted the loop) run the cleanup pass. -/
def generate_pdfs (ext : Externals) (course : String) (rows : List Row)
    (dir : Dir) : Except PyError Dir :=
  match runRows ext course rows dir with
  | .error e => .error e
  | .ok d => .ok (cleanupDir d)

/-- One row of the grades CSV: First Name, Last Name, Email, Score. -/
structure GradeRow where
  firstName : String
  lastName : String
  email : String
  score : ℚ
deriving DecidableEq, Repr

/-- `df['Score'].mean()`: the arithmetic mean of a list of scores. -/
def pyMean (l : List ℚ) : ℚ := l.sum / l.length

/-- The attachment path `os.path.join(directory, row['Last Name'].lower() + '.pdf')`
(POSIX join of a directory and a relative name). -/
def pdfPath (directory : String) (r : GradeRow) : String :=
  directory ++ "/" ++ (pyLower r.lastName ++ ".pdf")

/-- `EMAIL_TEMPLATE.format(poor_text=poor, FirstName=fn)`. -/
def emailBodyE (fn poor : String) : Except PyError String :=
  pyFormat EMAIL_TEMPLATE
    (fun k => if k = "FirstName" then some fn
      else if k = "poor_text" then some poor else none)

/-- Per-recipient outcome of `send_email`: attachment file absent (printed
and skipped before any transport attempt), transport raised (printed), or
mail handed to the server. -/
inductive DispatchOutcome where
  | skipped
  | transportFailed
  | sent
deriving DecidableEq, Repr

/-- `send_email` with the filesystem and the SMTP transport as parameters:
a `FileNotFoundError` on the attachment is caught and the recipient skipped;
any transport exception is caught and reported. No exception escapes. -/
def send_email (fs : String → Option String) (transport : String → Bool)
    (recipient : String) (_subject : String) (_body : Except PyError String)
    (pathToAttachment : String) : DispatchOutcome :=
  match fs pathToAttachment with
  | none => .skipped
  | some _ => if transport recipient then .sent else .transportFailed

/-- One iteration of the `send_emails` loop for a given cohort mean: select
the cover text by strict comparison with the mean, build the message, and
dispatch. Returns the selected cover text and the outcome. -/
def dispatchRecord (fs : String → Option String) (transport : String → Bool)
    (course directory : String) (avg : ℚ) (r : GradeRow) :
    String × DispatchOutcome :=
  let poor := if r.score < avg then POOR_TEXT else ""
  let body := emailBodyE r.firstName poor
  let subject := course ++ " Midterm Reflection"
  (poor, send_email fs transport r.email subject body (pdfPath directory r))

/-- `send_emails` over the already-ingested grade rows: the cohort mean is
computed once from all rows, then every row is dispatched with it. -/
def send_emails (fs : String → Option String) (transport : String → Bool)
    (gradeRows : List GradeRow) (course directory : String) :
    List (String × DispatchOutcome) :=
  let avg := pyMean (List.map GradeRow.score gradeRows)
  List.map (dispatchRecord fs transport course directory avg) gradeRows

lemma pyDropLast_append_pct (s : String) : pyDropLast (s ++ "%") = s := by
  show String.mk (s.data ++ ['%']).dropLast = s
  rw [List.dropLast_concat]

/-- C1 (amended): the percentage parse of `generate_pdfs` never raises; for
every answer of the form `<number>%` it yields `<number>`; and it yields `0`
exactly on those strings whose final-character-dropped remainder is not a
numeral. (The trailing character is dropped without being checked to be `%`,
so a numeral lacking the marker is not sent to `0`: its last digit is simply
dropped.) -/
theorem parse_percentage_amended :
    (∀ s v, pythonFloat? s = some v → parsePercentage (s ++ "%") = v) ∧
    (∀ s, pythonFloat? (pyDropLast s) = none → parsePercentage s = 0) ∧
    parsePercentage "" = 0 := by
  refine ⟨fun s v h => ?_, fun s h => ?_, by decide⟩
  · unfold parsePercentage
    rw [pyDropLast_append_pct, h]
  · unfold parsePercentage
    rw [h]

/-- C1 counterexample: the claim sends every string without a trailing `%`
to `0`, but the code parses `"42"` to `4` (the final character is dropped
unconditionally and the remainder `"4"` parses). -/
theorem parse_percentage_cex :
    parsePercentage "42" = 4 ∧ ¬ parsePercentage "42" = 0 := by decide

/-- Witness for C1 at concrete inputs. -/
theorem parse_percentage_amended_witness :
    parsePercentage ("40" ++ "%") = 40 ∧ parsePercentage "abc" = 0 :=
  ⟨parse_percentage_amended.1 "40" 40 (by decide),
   parse_percentage_amended.2.1 "abc" (by decide)⟩

/-- C2: every question label is routed by `classify` (the compiler's
`if`/`elif` chain, which `compileStep` dispatches on) to exactly one of the
seven classes, in the source's priority order: identity before the two
categories, categories before the overrides, overrides before the ignorable
`Unnamed` class, and the generic fallback last; and the only dropped class is
the `Unnamed` one. -/
theorem classification_exhaustive (q : String) :
    (∃! c, classify q = c) ∧
    ((q = "First Name" ∨ q = "Last Name") → classify q = .identity) ∧
    (¬(q = "First Name" ∨ q = "Last Name") →
      (pyStartsWith q "What percentage" = true → classify q = .category1) ∧
      (pyStartsWith q "What percentage" = false →
        (pyStartsWith q "Now that" = true → classify q = .category2) ∧
        (pyStartsWith q "Now that" = false →
          (pyStartsWith q "If \"other\"" = true →
            (pyEndsWith q "1" = true → classify q = .override2) ∧
            (pyEndsWith q "1" = false → classify q = .override1)) ∧
          (pyStartsWith q "If \"other\"" = false →
            (pyStartsWith q "Unnamed" = true → classify q = .ignorable) ∧
            (pyStartsWith q "Unnamed" = false → classify q = .generic))))) ∧
    (classify q = .ignorable → pyStartsWith q "Unnamed" = true) := by
  refine ⟨⟨classify q, rfl, fun y hy => hy.symm⟩, fun h1 => ?_,
    fun h1 => ⟨fun h2 => ?_, fun h2 => ⟨fun h3 => ?_, fun h3 =>
      ⟨fun h4 => ⟨fun h5 => ?_, fun h5 => ?_⟩,
       fun h4 => ⟨fun h5 => ?_, fun h5 => ?_⟩⟩⟩⟩, fun h => ?_⟩
  all_goals first
    | simp [classify, *]
    | (unfold classify at h; split_ifs at h; simp_all)

/-- Witness for C2 at concrete labels. -/
theorem classification_exhaustive_witness :
    classify "First Name" = FieldClass.identity ∧
    classify "Unnamed: 7" = FieldClass.ignorable :=
  ⟨(classification_exhaustive "First Name").2.1 (Or.inl rfl),
   (((((classification_exhaustive "Unnamed: 7").2.2.1 (by decide)).2
      (by decide)).2 (by decide)).2 (by decide)).1 (by decide)⟩

lemma compileRow_totals (row : Row) : ∀ (d0 d : ReportData),
    compileRow d0 row = .ok d →
    d.testPrepTotal = catFold .category1 d0.testPrepTotal row ∧
    d.lostPerTotal = catFold .category2 d0.lostPerTotal row := by
  induction row with
  | nil =>
    intro d0 d h
    simp only [compileRow, Except.ok.injEq] at h
    subst h
    simp [catFold]
  | cons p rest ih =>
    obtain ⟨q, a⟩ := p
    intro d0 d h
    simp only [compileRow] at h
    cases hs : compileStep d0 q a with
    | error e => rw [hs] at h; exact absurd h (by simp)
    | ok d2 =>
      rw [hs] at h
      obtain ⟨h1, h2⟩ := ih d2 d h
      cases hcq : classify q <;> simp only [compileStep, hcq] at hs
      case identity =>
        split_ifs at hs <;> simp only [Except.ok.injEq] at hs <;> subst hs <;>
          simp [catFold, List.filter_cons, hcq, h1, h2]
      case category1 =>
        cases hsc : subCat q <;> rw [hsc] at hs
        · exact absurd hs (by simp)
        · simp only [Except.ok.injEq] at hs
          subst hs
          simp only [h1, h2]
          simp [catFold, List.filter_cons, hcq]
      case category2 =>
        cases hsc : subCat q <;> rw [hsc] at hs
        · exact absurd hs (by simp)
        · simp only [Except.ok.injEq] at hs
          subst hs
          simp only [h1, h2]
          simp [catFold, List.filter_cons, hcq]
      case override1 =>
        simp only [Except.ok.injEq] at hs
        subst hs
        simp [catFold, List.filter_cons, hcq, h1, h2]
      case override2 =>
        simp only [Except.ok.injEq] at hs
        subst hs
        simp [catFold, List.filter_cons, hcq, h1, h2]
      case ignorable =>
        simp only [Except.ok.injEq] at hs
        subst hs
        simp [catFold, List.filter_cons, hcq, h1, h2]
      case generic =>
        simp only [Except.ok.injEq] at hs
        subst hs
        simp [catFold, List.filter_cons, hcq, h1, h2]

/-- C3 (amended): for every row that compiles, each category's reported
total equals the left-to-right Python-float accumulation — each partial sum
rounded to the nearest binary64 — of the parsed values of that category's
answers, in row order. Because reordering changes which partial sums get
rounded, the total is not invariant under permutation of the sub-questions
(see the counterexample below). -/
theorem category_total_float_fold (course : String) (row : Row)
    (d : ReportData) (h : compileRow (initData course) row = .ok d) :
    d.testPrepTotal = catFold .category1 0 row ∧
    d.lostPerTotal = catFold .category2 0 row := by
  obtain ⟨h1, h2⟩ := compileRow_totals row (initData course) d h
  rw [initData] at h1 h2
  simp only at h1 h2
  exact ⟨h1, h2⟩

def rowP1 : Row := [("What percentage [a]", "0.1%"),
  ("What percentage [b]", "0.2%"), ("What percentage [c]", "0.3%")]

def rowP2 : Row := [("What percentage [c]", "0.3%"),
  ("What percentage [b]", "0.2%"), ("What percentage [a]", "0.1%")]

/-- C3 counterexample: `rowP2` is a permutation of `rowP1`, both compile,
and the reported test-preparation totals differ — 0.6000000000000001
(= 1351079888211149 / 2^51) in row order against 0.6
(= 5404319552844595 / 2^53) reversed — because the binary64 roundings of
the partial sums depend on the order. This refutes the claim's
permutation-invariance clause. -/
theorem category_total_perm_cex :
    List.Perm rowP1 rowP2 ∧
    (Except.toOption (compileRow (initData "C") rowP1)).map
        ReportData.testPrepTotal =
      some (mkRat 1351079888211149 2251799813685248) ∧
    (Except.toOption (compileRow (initData "C") rowP2)).map
        ReportData.testPrepTotal =
      some (mkRat 5404319552844595 9007199254740992) ∧
    ¬ (mkRat 1351079888211149 2251799813685248 : ℚ) =
      mkRat 5404319552844595 9007199254740992 := by
  refine ⟨?_, by decide, by decide, by decide⟩
  rw [show rowP2 = rowP1.reverse from rfl]
  exact (List.reverse_perm rowP1).symm

/-- Witness for C3 at the spec's integer example: 40% and 65% accumulate
exactly to 105. -/
theorem category_total_float_fold_witness :
    ({ courseDesig := "C", firstName := none, lastName := some "Lee",
       testPrep := "- Reading notes: 40%\n- Practice problems: 65%\n",
       testPrepTotal := 105, lostPer := "", lostPerTotal := 0,
       testPrepOther := none, lostPerOther := none,
       genericRst := "" } : ReportData).testPrepTotal =
      catFold FieldClass.category1 0
        [("Last Name", "Lee"),
         ("What percentage [Reading notes]", "40%"),
         ("What percentage [Practice problems]", "65%")] :=
  (category_total_float_fold "C"
    [("Last Name", "Lee"),
     ("What percentage [Reading notes]", "40%"),
     ("What percentage [Practice problems]", "65%")]
    { courseDesig := "C", firstName := none, lastName := some "Lee",
      testPrep := "- Reading notes: 40%\n- Practice problems: 65%\n",
      testPrepTotal := 105, lostPer := "", lostPerTotal := 0,
      testPrepOther := none, lostPerOther := none,
      genericRst := "" } rfl).1

def anaG : GradeRow :=
  { firstName := "Ana", lastName := "Lee", email := "ana@ucdavis.edu", score := 60 }

def bobG : GradeRow :=
  { firstName := "Bob", lastName := "Kim", email := "bob@ucdavis.edu", score := 90 }

/-- C4: for every grade row of a batch, the cover text is the encouragement
variant exactly when the score is strictly below the batch mean, and the
empty variant when the score is at or above the mean (so a tie yields the
empty variant); and the whole batch is dispatched with the one mean computed
from all rows. -/
theorem cover_text_selection (fs : String → Option String)
    (transport : String → Bool) (course directory : String)
    (rows : List GradeRow) (r : GradeRow) (_hr : r ∈ rows) :
    (r.score < pyMean (List.map GradeRow.score rows) →
      (dispatchRecord fs transport course directory
        (pyMean (List.map GradeRow.score rows)) r).1 = POOR_TEXT) ∧
    (pyMean (List.map GradeRow.score rows) ≤ r.score →
      (dispatchRecord fs transport course directory
        (pyMean (List.map GradeRow.score rows)) r).1 = "") ∧
    ((dispatchRecord fs transport course directory
        (pyMean (List.map GradeRow.score rows)) r).1 = POOR_TEXT ↔
      r.score < pyMean (List.map GradeRow.score rows)) ∧
    send_emails fs transport rows course directory =
      List.map (dispatchRecord fs transport course directory
        (pyMean (List.map GradeRow.score rows))) rows := by
  refine ⟨fun h => by simp [dispatchRecord, h],
    fun h => by simp [dispatchRecord, not_lt.mpr h],
    ⟨fun hp => ?_, fun h => by simp [dispatchRecord, h]⟩, rfl⟩
  by_contra hnot
  rw [not_lt] at hnot
  simp [dispatchRecord, not_lt.mpr hnot] at hp
  exact absurd hp (by decide)

/-- Witness for C4 at a concrete two-student batch with mean 75. -/
theorem cover_text_selection_witness :
    (dispatchRecord (fun _ => none) (fun _ => true) "EME 150A" "out"
      (pyMean (List.map GradeRow.score [anaG, bobG])) anaG).1 = POOR_TEXT :=
  (cover_text_selection (fun _ => none) (fun _ => true) "EME 150A" "out"
    [anaG, bobG] anaG (by simp)).1
    (by simp [pyMean, anaG, bobG]; norm_num)

/-- C7: per-recipient dispatch isolation: a missing attachment file yields
the skipped outcome whatever the transport would do (no send is attempted),
a transport failure yields the reported transport-failed outcome, dispatch
itself is a total function (no exception escapes `send_email`), and the
batch produces one outcome per grade row. -/
theorem dispatch_isolation (fs : String → Option String)
    (transport : String → Bool) (course directory : String)
    (rows : List GradeRow) (r : GradeRow) (_hr : r ∈ rows) :
    (fs (pdfPath directory r) = none →
      ∀ tr2 : String → Bool,
        (dispatchRecord fs tr2 course directory
          (pyMean (List.map GradeRow.score rows)) r).2 = .skipped) ∧
    (∀ content, fs (pdfPath directory r) = some content →
      transport r.email = false →
      (dispatchRecord fs transport course directory
        (pyMean (List.map GradeRow.score rows)) r).2 = .transportFailed) ∧
    (∀ content, fs (pdfPath directory r) = some content →
      transport r.email = true →
      (dispatchRecord fs transport course directory
        (pyMean (List.map GradeRow.score rows)) r).2 = .sent) ∧
    (send_emails fs transport rows course directory).length = rows.length := by
  refine ⟨fun h tr2 => by simp [dispatchRecord, send_email, h],
    fun content h ht => by simp [dispatchRecord, send_email, h, ht],
    fun content h ht => by simp [dispatchRecord, send_email, h, ht],
    by simp [send_emails]⟩

/-- Witness for C7: a recipient whose attachment is absent is skipped. -/
theorem dispatch_isolation_witness :
    (dispatchRecord (fun _ => none) (fun _ => true) "EME 150A" "out"
      (pyMean (List.map GradeRow.score [anaG])) anaG).2 =
      DispatchOutcome.skipped :=
  (dispatch_isolation (fun _ => none) (fun _ => true) "EME 150A" "out"
    [anaG] anaG (by simp)).1 rfl (fun _ => true)

/-- C5 (amended): a row that compiles without a `Last Name` field aborts the
whole batch with an uncaught `KeyError` when `generate_pdfs` builds the
output filename; no later row is processed. There is no per-row handler in
the source. -/
theorem missing_identity_aborts (ext : Externals) (course : String)
    (row : Row) (rest : List Row) (dir : Dir) (d : ReportData)
    (h : compileRow (initData course) row = .ok d) (hln : d.lastName = none) :
    runRows ext course (row :: rest) dir = .error (.keyError "LastName") := by
  simp only [runRows, renderRow, h, hln]

def extId : Externals :=
  { texOf := id, pdfOf := id, logOf := id, auxOf := id }

/-- C5 counterexample: a batch whose first row lacks the identity fields
aborts with the uncaught key error instead of reporting and continuing to
the next (well-formed) row. -/
theorem missing_identity_cex :
    runRows extId "EME 150A"
      [[("Email", "e")], [("First Name", "Bob"), ("Last Name", "Kim")]] [] =
      .error (.keyError "LastName") := rfl

/-- Witness for C5 at a concrete identity-free row. -/
theorem missing_identity_aborts_witness :
    runRows extId "EME 150A" [[("Email", "e")]] [] =
      .error (.keyError "LastName") :=
  missing_identity_aborts extId "EME 150A" [("Email", "e")] [] []
    { courseDesig := "EME 150A", firstName := none, lastName := none,
      testPrep := "", testPrepTotal := 0, lostPer := "", lostPerTotal := 0,
      testPrepOther := none, lostPerOther := none,
      genericRst := "Email\n=====\ne\n\n" } rfl rfl

lemma string_mk_data (s : String) : String.mk s.data = s := rfl

lemma pySplitChar_not_mem (c : Char) (l : List Char) (h : c ∉ l) :
    pySplitChar c l = [l] := by
  induction l with
  | nil => rfl
  | cons x xs ih =>
    have hx : ¬ x = c := fun he => h (he ▸ List.mem_cons_self x xs)
    have hxs := ih (fun hm => h (List.mem_cons_of_mem _ hm))
    simp [pySplitChar, hx, hxs]

lemma pySplitChar_append (c : Char) (l1 l2 : List Char) (h : c ∉ l1) :
    pySplitChar c (l1 ++ c :: l2) = l1 :: pySplitChar c l2 := by
  induction l1 with
  | nil => simp [pySplitChar]
  | cons x xs ih =>
    have hx : ¬ x = c := fun he => h (he ▸ List.mem_cons_self x xs)
    have ihx := ih (fun hm => h (List.mem_cons_of_mem _ hm))
    simp [pySplitChar, hx, ihx]

lemma dropWhile_ne_append (l1 l2 : List Char) (c : Char) (h : c ∉ l1) :
    List.dropWhile (fun x => x != c) (l1 ++ c :: l2) = c :: l2 := by
  induction l1 with
  | nil => simp [List.dropWhile_cons]
  | cons x xs ih =>
    have hx : ¬ x = c := fun he => h (he ▸ List.mem_cons_self x xs)
    have ihx := ih (fun hm => h (List.mem_cons_of_mem _ hm))
    simp [List.dropWhile_cons, hx, ihx]

/-- C6 (amended): for a category label of the well-formed shape
`<prefix>[<sub-label>]` — a single `[` and a final `]` — the extraction
`question.split('[')[1][:-1]` yields the sub-label, which coincides with the
spec's substring strictly between the first `[` and the final `]`. (On other
shapes the two disagree, and a category label with no `[` raises an
uncaught `IndexError`.) -/
theorem sublabel_between_brackets (p m : String)
    (h1 : '[' ∉ p.data) (h2 : '[' ∉ m.data) :
    subCat (p ++ "[" ++ m ++ "]") = some m ∧
    specSubLabel (p ++ "[" ++ m ++ "]") = m := by
  have hdata : (p ++ "[" ++ m ++ "]").data =
      p.data ++ '[' :: (m.data ++ [']']) := by
    show ((p.data ++ ['[']) ++ m.data) ++ [']'] = _
    simp [List.append_assoc]
  constructor
  · unfold subCat
    rw [hdata, pySplitChar_append _ _ _ h1]
    have h2' : '[' ∉ m.data ++ [']'] := by
      simp only [List.mem_append, List.mem_singleton]
      rintro (hm | hm)
      · exact h2 hm
      · exact absurd hm (by decide)
    rw [pySplitChar_not_mem _ _ h2']
    simp [List.dropLast_concat, string_mk_data]
  · unfold specSubLabel
    rw [hdata, dropWhile_ne_append _ _ _ h1]
    simp [List.reverse_append, List.dropWhile_cons, string_mk_data]

/-- C6 counterexample: on the category-1 label `"What percentage [a] b"`
the code extracts `"a] "` (text from the first `[` to the string's end,
minus the final character) while the claim's substring between the first
`[` and the final `]` is `"a"`. -/
theorem sublabel_cex :
    classify "What percentage [a] b" = FieldClass.category1 ∧
    subCat "What percentage [a] b" = some "a] " ∧
    specSubLabel "What percentage [a] b" = "a" ∧
    ¬ ("a] " : String) = "a" := by decide

/-- Witness for C6 at a well-formed label. -/
theorem sublabel_between_brackets_witness :
    subCat ("What percentage " ++ "[" ++ "Reading notes" ++ "]") =
      some "Reading notes" :=
  (sublabel_between_brackets "What percentage " "Reading notes"
    (by decide) (by decide)).1

lemma setFile_names (d : Dir) (n c m v : String) (h : (n, c) ∈ d) :
    ∃ c2, (n, c2) ∈ setFile d m v := by
  by_cases hnm : n = m
  · exact ⟨v, by simp [setFile, hnm]⟩
  · refine ⟨c, ?_⟩
    simp only [setFile, List.mem_cons]
    right
    exact List.mem_filter.mpr ⟨h, by simp [hnm]⟩

lemma runRows_preserves_names (ext : Externals) (course : String) :
    ∀ (rows : List Row) (dir dirR : Dir),
    runRows ext course rows dir = .ok dirR →
    ∀ n c, (n, c) ∈ dir → ∃ c2, (n, c2) ∈ dirR := by
  intro rows
  induction rows with
  | nil =>
    intro dir dirR h n c hm
    simp only [runRows, Except.ok.injEq] at h
    subst h
    exact ⟨c, hm⟩
  | cons row rest ih =>
    intro dir dirR h n c hm
    simp only [runRows] at h
    cases hr : renderRow course row with
    | error e => rw [hr] at h; exact absurd h (by simp)
    | ok pr =>
      obtain ⟨base, content⟩ := pr
      rw [hr] at h
      simp only at h
      obtain ⟨c1, h1⟩ := setFile_names dir n c (base ++ ".rst") content hm
      obtain ⟨c2, h2⟩ := setFile_names _ n c1 (base ++ ".tex") _ h1
      obtain ⟨c3, h3⟩ := setFile_names _ n c2 (base ++ ".pdf") _ h2
      obtain ⟨c4, h4⟩ := setFile_names _ n c3 (base ++ ".log") _ h3
      obtain ⟨c5, h5⟩ := setFile_names _ n c4 (base ++ ".aux") _ h4
      exact ih _ _ h n c5 h5

/-- C8 (amended): when the whole batch succeeds, the cleanup pass removes
every file of the output directory whose name matches one of the five glob
patterns `*.aux`, `*.log`, `*.out`, `*.rst`, `*.tex` — regardless of whether
its base name belongs to a generated document — and a file of any other
extension that was present before the run is still present after it. -/
theorem cleanup_removes_intermediates (ext : Externals) (course : String)
    (rows : List Row) (dir0 dirF : Dir)
    (h : generate_pdfs ext course rows dir0 = .ok dirF) :
    (∀ p ∈ dirF, bannedExt p.1 = false) ∧
    (∀ p ∈ dir0, bannedExt p.1 = false → ∃ c, (p.1, c) ∈ dirF) := by
  unfold generate_pdfs at h
  cases hr : runRows ext course rows dir0 with
  | error e => rw [hr] at h; exact absurd h (by simp)
  | ok dirR =>
    rw [hr] at h
    simp only [Except.ok.injEq] at h
    subst h
    constructor
    · intro p hp
      have hmem := List.mem_filter.mp hp
      simpa using hmem.2
    · intro p hp hb
      obtain ⟨c2, hc2⟩ := runRows_preserves_names ext course rows dir0 dirR hr
        p.1 p.2 (by simpa using hp)
      exact ⟨c2, List.mem_filter.mpr ⟨hc2, by simp [hb]⟩⟩

/-- C8 counterexample: a pre-existing file `unrelated.tex`, unrelated to the
run (here the batch is empty, so no document was generated at all), is
nevertheless deleted by the glob-based cleanup. -/
theorem cleanup_cex :
    generate_pdfs extId "EME 150A" [] [("unrelated.tex", "keep")] =
      .ok [] := rfl

set_option maxRecDepth 10000

/-- Witness for C8 over a concrete successful run. -/
theorem cleanup_removes_intermediates_witness :
    bannedExt (("lee.pdf", "P") : String × String).1 = false := by
  have h := cleanup_removes_intermediates
    { texOf := fun _ => "T", pdfOf := fun _ => "P", logOf := fun _ => "L",
      auxOf := fun _ => "A" }
    "EME 150A"
    [[("First Name", "Bob"), ("Last Name", "Lee"),
      ("If \"other\" above please specify.", "no"),
      ("If \"other\" above please specify..1", "no")]]
    [] [("lee.pdf", "P")] rfl
  exact h.1 ("lee.pdf", "P") (by simp)

lemma append_ne_of_ne (k s t : String) (h : ¬ s = t) : ¬ k ++ s = k ++ t := by
  intro he
  apply h
  have hd : k.data ++ s.data = k.data ++ t.data := congrArg String.data he
  have h2 := List.append_cancel_left hd
  calc s = String.mk s.data := rfl
    _ = String.mk t.data := by rw [h2]
    _ = t := rfl

lemma isPrefixOf_append_of_length_le (l1 : List Char) :
    ∀ (l2 l3 : List Char), l1.length ≤ l2.length →
    List.isPrefixOf l1 (l2 ++ l3) = List.isPrefixOf l1 l2 := by
  induction l1 with
  | nil => intro l2 l3 _; simp [List.isPrefixOf]
  | cons x xs ih =>
    intro l2 l3 h
    cases l2 with
    | nil => exact absurd h (by simp)
    | cons y ys =>
      simp only [List.cons_append, List.isPrefixOf, List.append_eq]
      rw [ih ys l3 (by simpa using h)]

lemma pyEndsWith_append_ext (k e s : String)
    (hlen : e.data.length ≤ s.data.length) :
    pyEndsWith (k ++ s) e = List.isPrefixOf e.data.reverse s.data.reverse := by
  unfold pyEndsWith
  have hrev : (k ++ s).data.reverse = s.data.reverse ++ k.data.reverse := by
    show (k.data ++ s.data).reverse = _
    simp [List.reverse_append]
  rw [hrev, isPrefixOf_append_of_length_le _ _ _ (by simpa using hlen)]

lemma bannedExt_pdf (k : String) : bannedExt (k ++ ".pdf") = false := by
  unfold bannedExt
  rw [pyEndsWith_append_ext k ".aux" ".pdf" (by decide),
    pyEndsWith_append_ext k ".log" ".pdf" (by decide),
    pyEndsWith_append_ext k ".out" ".pdf" (by decide),
    pyEndsWith_append_ext k ".rst" ".pdf" (by decide),
    pyEndsWith_append_ext k ".tex" ".pdf" (by decide)]
  decide

lemma lookup_cleanup (n : String) (hg : bannedExt n = false) :
    ∀ d : Dir, List.lookup n (cleanupDir d) = List.lookup n d := by
  intro d
  induction d with
  | nil => rfl
  | cons p rest ih =>
    obtain ⟨k, v⟩ := p
    by_cases hnk : n = k
    · subst hnk
      simp [cleanupDir, List.filter_cons, hg, List.lookup]
    · have hb : (n == k) = false := by simp [hnk]
      cases hbk : bannedExt k
      · simpa [cleanupDir, List.filter_cons, hbk, List.lookup, hb] using ih
      · simpa [cleanupDir, List.filter_cons, hbk, List.lookup, hb] using ih

lemma lookup_setFile_eq (d : Dir) (n c : String) :
    List.lookup n (setFile d n c) = some c := by
  simp [setFile, List.lookup]

lemma lookup_filter_ne_key (n m : String) (h : ¬ n = m) :
    ∀ d : Dir, List.lookup n (List.filter (fun p => !(p.1 == m)) d) =
      List.lookup n d := by
  intro d
  induction d with
  | nil => rfl
  | cons p rest ih =>
    obtain ⟨k, v⟩ := p
    by_cases hk : k = m
    · subst hk
      have hn : (n == k) = false := by simp [h]
      simpa [List.filter_cons, List.lookup, hn] using ih
    · by_cases hnk : n = k
      · subst hnk
        simp [List.filter_cons, hk, List.lookup]
      · have hn : (n == k) = false := by simp [hnk]
        simpa [List.filter_cons, hk, List.lookup, hn] using ih

lemma lookup_setFile_ne (d : Dir) (n m c : String) (h : ¬ n = m) :
    List.lookup n (setFile d m c) = List.lookup n d := by
  have hb : (n == m) = false := by simp [h]
  simp only [setFile, List.lookup, hb]
  exact lookup_filter_ne_key n m h d

/-- C9: output documents are keyed solely by the lower-cased last name: a
successfully rendered row files to `<lower(last name)>.pdf`; when two rows
file under the same key, the later row's document silently overwrites the
earlier one's in the final directory; and the dispatcher derives its
attachment path by the identical `<lower(last name)>.pdf` rule. -/
theorem lastname_key_overwrite (ext : Externals) (course : String)
    (row1 row2 : Row) (k : String) (dir0 dirF : Dir)
    (gr : GradeRow) (directory : String)
    (h1 : Except.map Prod.fst (renderRow course row1) = .ok k)
    (h2 : Except.map Prod.fst (renderRow course row2) = .ok k)
    (hF : generate_pdfs ext course [row1, row2] dir0 = .ok dirF) :
    Option.map pyLower
      ((Except.toOption (compileRow (initData course) row1)).bind
        ReportData.lastName) = some k ∧
    List.lookup (k ++ ".pdf") dirF =
      (Except.map (fun pr => ext.pdfOf (ext.texOf pr.2))
        (renderRow course row2)).toOption ∧
    pdfPath directory gr = directory ++ "/" ++ (pyLower gr.lastName ++ ".pdf") := by
  cases hc1 : compileRow (initData course) row1 with
  | error e => simp [renderRow, hc1, Except.map] at h1
  | ok d1 =>
  cases hl1 : d1.lastName with
  | none => simp [renderRow, hc1, hl1, Except.map] at h1
  | some ln1 =>
  cases hf1 : pyFormat (TEMPLATE ++ d1.genericRst ++ END_TEMPLATE) (lookupData d1) with
  | error e => simp [renderRow, hc1, hl1, hf1, Except.map] at h1
  | ok c1 =>
  have hr1 : renderRow course row1 = .ok (pyLower ln1, c1) := by
    simp [renderRow, hc1, hl1, hf1]
  rw [hr1] at h1
  simp only [Except.map, Except.ok.injEq] at h1
  cases hc2 : compileRow (initData course) row2 with
  | error e => simp [renderRow, hc2, Except.map] at h2
  | ok d2 =>
  cases hl2 : d2.lastName with
  | none => simp [renderRow, hc2, hl2, Except.map] at h2
  | some ln2 =>
  cases hf2 : pyFormat (TEMPLATE ++ d2.genericRst ++ END_TEMPLATE) (lookupData d2) with
  | error e => simp [renderRow, hc2, hl2, hf2, Except.map] at h2
  | ok c2 =>
  have hr2 : renderRow course row2 = .ok (pyLower ln2, c2) := by
    simp [renderRow, hc2, hl2, hf2]
  rw [hr2] at h2
  simp only [Except.map, Except.ok.injEq] at h2
  refine ⟨by simp [hc1, Except.toOption, hl1, h1], ?_, rfl⟩
  rw [hr2]
  simp only [generate_pdfs, runRows, hr1, hr2, Except.ok.injEq] at hF
  subst hF
  rw [h1, h2] at *
  rw [lookup_cleanup _ (bannedExt_pdf k)]
  rw [lookup_setFile_ne _ _ _ _ (append_ne_of_ne k ".pdf" ".aux" (by decide)),
    lookup_setFile_ne _ _ _ _ (append_ne_of_ne k ".pdf" ".log" (by decide)),
    lookup_setFile_eq]
  simp [Except.map, Except.toOption]

def constExtW : Externals :=
  { texOf := fun _ => "T", pdfOf := fun _ => "P", logOf := fun _ => "L",
    auxOf := fun _ => "A" }

def anaRowW : Row := [("First Name", "Ana"), ("Last Name", "Lee"),
  ("What percentage of your test-preparation time was spent in each of these activities? [Reading notes]", "40%"),
  ("If \"other\" above please specify.", "none"),
  ("If \"other\" above please specify..1", "none"),
  ("How did you study?", "hard"),
  ("Unnamed: 7", "")]

def bobRowW : Row := [("First Name", "Bob"), ("Last Name", "Lee"),
  ("If \"other\" above please specify.", "no"),
  ("If \"other\" above please specify..1", "no")]

/-- Witness for C9: two students named Lee; the surviving `lee.pdf` is the
later row's document. -/
theorem lastname_key_overwrite_witness :
    List.lookup ("lee" ++ ".pdf") [("lee.pdf", "P")] =
      (Except.map (fun pr => constExtW.pdfOf (constExtW.texOf pr.2))
        (renderRow "EME 150A" bobRowW)).toOption :=
  (lastname_key_overwrite constExtW "EME 150A" anaRowW bobRowW "lee" []
    [("lee.pdf", "P")] anaG "out" rfl rfl rfl).2.1

lemma all_append {P : Char → Prop} {l1 l2 : List Char}
    (h1 : ∀ c ∈ l1, P c) (h2 : ∀ c ∈ l2, P c) : ∀ c ∈ l1 ++ l2, P c := by
  intro c hc
  rcases List.mem_append.mp hc with h | h
  · exact h1 c h
  · exact h2 c h

lemma tokenizeAux_lit_chunk (l : List Char)
    (h : ∀ c ∈ l, ¬ c = '\x7b' ∧ ¬ c = '\x7d') :
    ∀ (acc rest : List Char),
    tokenizeAux (.lit acc) (l ++ rest) =
      tokenizeAux (.lit (l.reverse ++ acc)) rest := by
  induction l with
  | nil => intro acc rest; simp
  | cons c t ih =>
    intro acc rest
    have hc := h c (List.mem_cons_self c t)
    have ht : ∀ x ∈ t, ¬ x = '\x7b' ∧ ¬ x = '\x7d' :=
      fun x hx => h x (List.mem_cons_of_mem c hx)
    cases h2 : t ++ rest with
    | nil =>
      obtain ⟨ht0, hr0⟩ := List.append_eq_nil.mp h2
      subst ht0
      subst hr0
      simp [tokenizeAux, hc.1, hc.2]
    | cons c2 r2 =>
      have hstep : tokenizeAux (.lit acc) (c :: (t ++ rest)) =
          tokenizeAux (.lit (c :: acc)) (t ++ rest) := by
        rw [h2]
        simp [tokenizeAux, hc.1, hc.2]
      rw [List.cons_append, hstep, ih ht (c :: acc) rest]
      simp [List.append_assoc]

lemma tokenizeAux_key_chunk (l : List Char)
    (h : ∀ c ∈ l, ¬ c = '\x7b' ∧ ¬ c = '\x7d') :
    ∀ (acc rest : List Char),
    tokenizeAux (.key acc) (l ++ rest) =
      tokenizeAux (.key (l.reverse ++ acc)) rest := by
  induction l with
  | nil => intro acc rest; simp
  | cons c t ih =>
    intro acc rest
    have hc := h c (List.mem_cons_self c t)
    have ht : ∀ x ∈ t, ¬ x = '\x7b' ∧ ¬ x = '\x7d' :=
      fun x hx => h x (List.mem_cons_of_mem c hx)
    rw [List.cons_append]
    rw [show tokenizeAux (.key acc) (c :: (t ++ rest)) =
        tokenizeAux (.key (c :: acc)) (t ++ rest) from by
      simp [tokenizeAux, hc.1, hc.2]]
    rw [ih ht (c :: acc) rest]
    simp [List.append_assoc]

lemma tokenizeAux_segment (s : List Char) (kc : Char) (ks : String)
    (rest : List Char)
    (hs : ∀ c ∈ s, ¬ c = '\x7b' ∧ ¬ c = '\x7d')
    (hkc : ¬ kc = '\x7b' ∧ ¬ kc = '\x7d')
    (hks : ∀ c ∈ ks.data, ¬ c = '\x7b' ∧ ¬ c = '\x7d') :
    tokenizeAux (.lit []) (s ++ '\x7b' :: kc :: (ks.data ++ '\x7d' :: rest)) =
      Except.map (fun ts => Tok.lit (String.mk s) :: ts)
        (Except.map (fun ts => Tok.key (String.mk (kc :: ks.data)) :: ts)
          (tokenizeAux (.lit []) rest)) := by
  rw [tokenizeAux_lit_chunk s hs [] ('\x7b' :: kc :: (ks.data ++ '\x7d' :: rest))]
  rw [show tokenizeAux (.lit (s.reverse ++ []))
        ('\x7b' :: kc :: (ks.data ++ '\x7d' :: rest)) =
      Except.map (fun ts => Tok.lit (String.mk (s.reverse ++ []).reverse) :: ts)
        (tokenizeAux (.key []) (kc :: (ks.data ++ '\x7d' :: rest))) from by
    simp [tokenizeAux, hkc.1]]
  rw [show tokenizeAux (.key []) (kc :: (ks.data ++ '\x7d' :: rest)) =
      tokenizeAux (.key [kc]) (ks.data ++ '\x7d' :: rest) from by
    simp [tokenizeAux, hkc.1, hkc.2]]
  rw [tokenizeAux_key_chunk ks.data hks [kc] ('\x7d' :: rest)]
  rw [show tokenizeAux (.key (ks.data.reverse ++ [kc])) ('\x7d' :: rest) =
      Except.map
        (fun ts => Tok.key (String.mk (ks.data.reverse ++ [kc]).reverse) :: ts)
        (tokenizeAux (.lit []) rest) from by simp [tokenizeAux]]
  simp [List.reverse_append]

lemma tokenizeAux_key_at (acc : List Char) (kc : Char) (ks : String)
    (rest : List Char)
    (hkc : ¬ kc = '\x7b' ∧ ¬ kc = '\x7d')
    (hks : ∀ c ∈ ks.data, ¬ c = '\x7b' ∧ ¬ c = '\x7d') :
    tokenizeAux (.lit acc) ('\x7b' :: kc :: (ks.data ++ '\x7d' :: rest)) =
      Except.map (fun ts => Tok.lit (String.mk acc.reverse) :: ts)
        (Except.map (fun ts => Tok.key (String.mk (kc :: ks.data)) :: ts)
          (tokenizeAux (.lit []) rest)) := by
  rw [show tokenizeAux (.lit acc) ('\x7b' :: kc :: (ks.data ++ '\x7d' :: rest)) =
      Except.map (fun ts => Tok.lit (String.mk acc.reverse) :: ts)
        (tokenizeAux (.key []) (kc :: (ks.data ++ '\x7d' :: rest))) from by
    simp [tokenizeAux, hkc.1]]
  rw [show tokenizeAux (.key []) (kc :: (ks.data ++ '\x7d' :: rest)) =
      tokenizeAux (.key [kc]) (ks.data ++ '\x7d' :: rest) from by
    simp [tokenizeAux, hkc.1, hkc.2]]
  rw [tokenizeAux_key_chunk ks.data hks [kc] ('\x7d' :: rest)]
  rw [show tokenizeAux (.key (ks.data.reverse ++ [kc])) ('\x7d' :: rest) =
      Except.map
        (fun ts => Tok.key (String.mk (ks.data.reverse ++ [kc]).reverse) :: ts)
        (tokenizeAux (.lit []) rest) from by simp [tokenizeAux]]
  simp [List.reverse_append]

set_option maxHeartbeats 2000000 in
lemma tokenize_report (g : String)
    (hg : ∀ c ∈ g.data, ¬ c = '\x7b' ∧ ¬ c = '\x7d') :
    tokenizeAux (.lit []) (TEMPLATE ++ g ++ END_TEMPLATE).data =
      .ok [Tok.lit (eqRule 79 ++ "\n"),
        Tok.key "course_desig",
        Tok.lit (" Midterm Reflection\n" ++ eqRule 79 ++ "\n\nStudent\n=======\n\n"),
        Tok.key "FirstName",
        Tok.lit " ",
        Tok.key "LastName",
        Tok.lit ("\n\n" ++ (g ++ ("\nWhat percentage of your test-preparation time was spent in each of these activities?\n" ++ eqRule 84 ++ "\n\n"))),
        Tok.key "test_prep",
        Tok.lit "\nTotal Percentage: ",
        Tok.key "test_prep_total",
        Tok.lit "\n\nIf \"other\" above please specify.\n--------------------------------\n",
        Tok.key "test_prep_other",
        Tok.lit ("\n\nNow that you have looked over your graded exam, estimate the percentage of points you lost due to each of the following?\n" ++ eqRule 120 ++ "\n\n"),
        Tok.key "lost_per",
        Tok.lit "\nTotal Percentage: ",
        Tok.key "lost_per_total",
        Tok.lit "\n\nIf \"other\" above please specify.\n--------------------------------\n",
        Tok.key "lost_per_other",
        Tok.lit "\n"] := by
  have hsplit : (TEMPLATE ++ g ++ END_TEMPLATE).data =
      (((eqRule 79 ++ "\n")).data ++ ('\x7b' :: 'c' :: (("ourse_desig").data ++ '\x7d' :: (((" Midterm Reflection\n" ++ eqRule 79 ++ "\n\nStudent\n=======\n\n")).data ++ ('\x7b' :: 'F' :: (("irstName").data ++ '\x7d' :: ((" ").data ++ ('\x7b' :: 'L' :: (("astName").data ++ '\x7d' :: (("\n\n").data ++ (g.data ++ ((("\nWhat percentage of your test-preparation time was spent in each of these activities?\n" ++ eqRule 84 ++ "\n\n")).data ++ ('\x7b' :: 't' :: (("est_prep").data ++ '\x7d' :: (("\nTotal Percentage: ").data ++ ('\x7b' :: 't' :: (("est_prep_total").data ++ '\x7d' :: (("\n\nIf \"other\" above please specify.\n--------------------------------\n").data ++ ('\x7b' :: 't' :: (("est_prep_other").data ++ '\x7d' :: ((("\n\nNow that you have looked over your graded exam, estimate the percentage of points you lost due to each of the following?\n" ++ eqRule 120 ++ "\n\n")).data ++ ('\x7b' :: 'l' :: (("ost_per").data ++ '\x7d' :: (("\nTotal Percentage: ").data ++ ('\x7b' :: 'l' :: (("ost_per_total").data ++ '\x7d' :: (("\n\nIf \"other\" above please specify.\n--------------------------------\n").data ++ ('\x7b' :: 'l' :: (("ost_per_other").data ++ '\x7d' :: ("\n").data))))))))))))))))))))))))))))) := by
    show (TEMPLATE.data ++ g.data) ++ END_TEMPLATE.data = _
    simp [TEMPLATE, END_TEMPLATE, string_data_append]
  rw [hsplit]
  rw [tokenizeAux_lit_chunk ((eqRule 79 ++ "\n")).data (by decide) _ _]
  rw [tokenizeAux_key_at _ 'c' "ourse_desig" _ (by decide) (by decide)]
  rw [tokenizeAux_lit_chunk ((" Midterm Reflection\n" ++ eqRule 79 ++ "\n\nStudent\n=======\n\n")).data (by decide) _ _]
  rw [tokenizeAux_key_at _ 'F' "irstName" _ (by decide) (by decide)]
  rw [tokenizeAux_lit_chunk (" ").data (by decide) _ _]
  rw [tokenizeAux_key_at _ 'L' "astName" _ (by decide) (by decide)]
  rw [tokenizeAux_lit_chunk ("\n\n").data (by decide) _ _]
  rw [tokenizeAux_lit_chunk g.data hg _ _]
  rw [tokenizeAux_lit_chunk (("\nWhat percentage of your test-preparation time was spent in each of these activities?\n" ++ eqRule 84 ++ "\n\n")).data (by decide) _ _]
  rw [tokenizeAux_key_at _ 't' "est_prep" _ (by decide) (by decide)]
  rw [tokenizeAux_lit_chunk ("\nTotal Percentage: ").data (by decide) _ _]
  rw [tokenizeAux_key_at _ 't' "est_prep_total" _ (by decide) (by decide)]
  rw [tokenizeAux_lit_chunk ("\n\nIf \"other\" above please specify.\n--------------------------------\n").data (by decide) _ _]
  rw [tokenizeAux_key_at _ 't' "est_prep_other" _ (by decide) (by decide)]
  rw [tokenizeAux_lit_chunk (("\n\nNow that you have looked over your graded exam, estimate the percentage of points you lost due to each of the following?\n" ++ eqRule 120 ++ "\n\n")).data (by decide) _ _]
  rw [tokenizeAux_key_at _ 'l' "ost_per" _ (by decide) (by decide)]
  rw [tokenizeAux_lit_chunk ("\nTotal Percentage: ").data (by decide) _ _]
  rw [tokenizeAux_key_at _ 'l' "ost_per_total" _ (by decide) (by decide)]
  rw [tokenizeAux_lit_chunk ("\n\nIf \"other\" above please specify.\n--------------------------------\n").data (by decide) _ _]
  rw [tokenizeAux_key_at _ 'l' "ost_per_other" _ (by decide) (by decide)]
  rw [show tokenizeAux (FmtMode.lit []) (("\n").data) =
      Except.ok [Tok.lit "\n"] from rfl]
  have hacc : ((("\nWhat percentage of your test-preparation time was spent in each of these activities?\n" ++ eqRule 84 ++ "\n\n")).data.reverse ++
      (g.data.reverse ++ (("\n\n").data.reverse ++ []))).reverse =
      ("\n\n").data ++ (g.data ++ (("\nWhat percentage of your test-preparation time was spent in each of these activities?\n" ++ eqRule 84 ++ "\n\n")).data) := by
    simp only [List.append_nil, List.reverse_append, List.reverse_reverse,
      List.append_assoc]
  simp only [hacc]
  rfl

lemma classify_override1_elim (q : String)
    (h : classify q = FieldClass.override1) :
    pyStartsWith q "If \"other\"" = true ∧ pyEndsWith q "1" = false := by
  unfold classify at h
  split_ifs at h
  simp_all

lemma classify_override2_elim (q : String)
    (h : classify q = FieldClass.override2) :
    pyStartsWith q "If \"other\"" = true ∧ pyEndsWith q "1" = true := by
  unfold classify at h
  split_ifs at h
  simp_all

lemma compileRow_overrides (row : Row) : ∀ d0 d,
    compileRow d0 row = .ok d →
    (d.testPrepOther ≠ none → d0.testPrepOther ≠ none ∨
      ∃ p ∈ row, classify p.1 = FieldClass.override1) ∧
    (d.lostPerOther ≠ none → d0.lostPerOther ≠ none ∨
      ∃ p ∈ row, classify p.1 = FieldClass.override2) := by
  induction row with
  | nil =>
    intro d0 d h
    simp only [compileRow, Except.ok.injEq] at h
    subst h
    exact ⟨fun hh => Or.inl hh, fun hh => Or.inl hh⟩
  | cons p rest ih =>
    obtain ⟨q, a⟩ := p
    intro d0 d h
    simp only [compileRow] at h
    cases hs : compileStep d0 q a with
    | error e => rw [hs] at h; exact absurd h (by simp)
    | ok d2 =>
      rw [hs] at h
      obtain ⟨ih1, ih2⟩ := ih d2 d h
      cases hcq : classify q <;> simp only [compileStep, hcq] at hs
      case override1 =>
        simp only [Except.ok.injEq] at hs
        subst hs
        refine ⟨fun _ => Or.inr ⟨(q, a), List.mem_cons_self _ _, hcq⟩,
          fun hh => ?_⟩
        rcases ih2 hh with h' | ⟨p2, hp2, hc2⟩
        · exact Or.inl (by simpa using h')
        · exact Or.inr ⟨p2, List.mem_cons_of_mem _ hp2, hc2⟩
      case override2 =>
        simp only [Except.ok.injEq] at hs
        subst hs
        refine ⟨fun hh => ?_,
          fun _ => Or.inr ⟨(q, a), List.mem_cons_self _ _, hcq⟩⟩
        rcases ih1 hh with h' | ⟨p2, hp2, hc2⟩
        · exact Or.inl (by simpa using h')
        · exact Or.inr ⟨p2, List.mem_cons_of_mem _ hp2, hc2⟩
      case identity =>
        split_ifs at hs <;> simp only [Except.ok.injEq] at hs <;> subst hs <;>
        · refine ⟨fun hh => ?_, fun hh => ?_⟩
          · rcases ih1 hh with h' | ⟨p2, hp2, hc2⟩
            · exact Or.inl (by simpa using h')
            · exact Or.inr ⟨p2, List.mem_cons_of_mem _ hp2, hc2⟩
          · rcases ih2 hh with h' | ⟨p2, hp2, hc2⟩
            · exact Or.inl (by simpa using h')
            · exact Or.inr ⟨p2, List.mem_cons_of_mem _ hp2, hc2⟩
      case category1 =>
        cases hsc : subCat q <;> rw [hsc] at hs
        · exact absurd hs (by simp)
        · simp only [Except.ok.injEq] at hs
          subst hs
          refine ⟨fun hh => ?_, fun hh => ?_⟩
          · rcases ih1 hh with h' | ⟨p2, hp2, hc2⟩
            · exact Or.inl (by simpa using h')
            · exact Or.inr ⟨p2, List.mem_cons_of_mem _ hp2, hc2⟩
          · rcases ih2 hh with h' | ⟨p2, hp2, hc2⟩
            · exact Or.inl (by simpa using h')
            · exact Or.inr ⟨p2, List.mem_cons_of_mem _ hp2, hc2⟩
      case category2 =>
        cases hsc : subCat q <;> rw [hsc] at hs
        · exact absurd hs (by simp)
        · simp only [Except.ok.injEq] at hs
          subst hs
          refine ⟨fun hh => ?_, fun hh => ?_⟩
          · rcases ih1 hh with h' | ⟨p2, hp2, hc2⟩
            · exact Or.inl (by simpa using h')
            · exact Or.inr ⟨p2, List.mem_cons_of_mem _ hp2, hc2⟩
          · rcases ih2 hh with h' | ⟨p2, hp2, hc2⟩
            · exact Or.inl (by simpa using h')
            · exact Or.inr ⟨p2, List.mem_cons_of_mem _ hp2, hc2⟩
      case ignorable =>
        simp only [Except.ok.injEq] at hs
        subst hs
        refine ⟨fun hh => ?_, fun hh => ?_⟩
        · rcases ih1 hh with h' | ⟨p2, hp2, hc2⟩
          · exact Or.inl (by simpa using h')
          · exact Or.inr ⟨p2, List.mem_cons_of_mem _ hp2, hc2⟩
        · rcases ih2 hh with h' | ⟨p2, hp2, hc2⟩
          · exact Or.inl (by simpa using h')
          · exact Or.inr ⟨p2, List.mem_cons_of_mem _ hp2, hc2⟩
      case generic =>
        simp only [Except.ok.injEq] at hs
        subst hs
        refine ⟨fun hh => ?_, fun hh => ?_⟩
        · rcases ih1 hh with h' | ⟨p2, hp2, hc2⟩
          · exact Or.inl (by simpa using h')
          · exact Or.inr ⟨p2, List.mem_cons_of_mem _ hp2, hc2⟩
        · rcases ih2 hh with h' | ⟨p2, hp2, hc2⟩
          · exact Or.inl (by simpa using h')
          · exact Or.inr ⟨p2, List.mem_cons_of_mem _ hp2, hc2⟩

/-- C10: the two override placeholders of the rendered document are populated
only by questions whose label starts with the `If "other"` prompt — the one
ending in `1` filling the points-lost slot and any other filling the
test-preparation slot — and for a row (with identity fields present and
brace-free generic text) that lacks such a question for one of the two
slots, the final template formatting raises an uncaught missing-key error
and the whole batch aborts with no further rows processed. -/
theorem override_slots (course : String) (row : Row) (d : ReportData)
    (h : compileRow (initData course) row = .ok d) :
    (d.testPrepOther ≠ none →
      ∃ p ∈ row, pyStartsWith p.1 "If \"other\"" = true ∧
        pyEndsWith p.1 "1" = false) ∧
    (d.lostPerOther ≠ none →
      ∃ p ∈ row, pyStartsWith p.1 "If \"other\"" = true ∧
        pyEndsWith p.1 "1" = true) ∧
    (∀ (ext : Externals) (rest : List Row) (dir : Dir) (fn ln : String),
      d.firstName = some fn → d.lastName = some ln →
      (∀ c ∈ d.genericRst.data, ¬ c = '\x7b' ∧ ¬ c = '\x7d') →
      d.testPrepOther = none →
      runRows ext course (row :: rest) dir =
        .error (.keyError "test_prep_other")) ∧
    (∀ (ext : Externals) (rest : List Row) (dir : Dir) (fn ln tpo : String),
      d.firstName = some fn → d.lastName = some ln →
      (∀ c ∈ d.genericRst.data, ¬ c = '\x7b' ∧ ¬ c = '\x7d') →
      d.testPrepOther = some tpo → d.lostPerOther = none →
      runRows ext course (row :: rest) dir =
        .error (.keyError "lost_per_other")) := by
  obtain ⟨o1, o2⟩ := compileRow_overrides row (initData course) d h
  refine ⟨fun hh => ?_, fun hh => ?_, ?_, ?_⟩
  · rcases o1 hh with h' | ⟨p, hp, hc⟩
    · exact absurd rfl h'
    · exact ⟨p, hp, classify_override1_elim p.1 hc⟩
  · rcases o2 hh with h' | ⟨p, hp, hc⟩
    · exact absurd rfl h'
    · exact ⟨p, hp, classify_override2_elim p.1 hc⟩
  · intro ext rest dir fn ln hfn hln hb hother
    have hfmt : pyFormat (TEMPLATE ++ d.genericRst ++ END_TEMPLATE)
        (lookupData d) = .error (.keyError "test_prep_other") := by
      unfold pyFormat
      rw [tokenize_report d.genericRst hb]
      simp only [substToks, lookupData, hfn, hln, hother]
      simp [Except.map]
    simp only [runRows, renderRow, h, hln, hfmt]
  · intro ext rest dir fn ln tpo hfn hln hb hother hlpo
    have hfmt : pyFormat (TEMPLATE ++ d.genericRst ++ END_TEMPLATE)
        (lookupData d) = .error (.keyError "lost_per_other") := by
      unfold pyFormat
      rw [tokenize_report d.genericRst hb]
      simp only [substToks, lookupData, hfn, hln, hother, hlpo]
      simp [Except.map]
    simp only [runRows, renderRow, h, hln, hfmt]

/-- Witness for C10: a row with identity fields but no override questions
aborts the batch at formatting time with the missing-key error. -/
theorem override_slots_witness :
    runRows extId "EME 150A"
      [[("First Name", "Ana"), ("Last Name", "Lee")]] [] =
      .error (.keyError "test_prep_other") :=
  (override_slots "EME 150A" [("First Name", "Ana"), ("Last Name", "Lee")]
    { courseDesig := "EME 150A", firstName := some "Ana",
      lastName := some "Lee", testPrep := "", testPrepTotal := 0,
      lostPer := "", lostPerTotal := 0, testPrepOther := none,
      lostPerOther := none, genericRst := "" } rfl).2.2.1
    extId [] [] "Ana" "Lee" rfl rfl (by decide) rfl
